import Mathlib

/- Shallow embedding of src/bitbox02.js: the BitBox02 browser client.
   The module discovers a device through the local bridge (HTTP GET polling),
   opens a WebSocket to the bridge, constructs the external firmware handle and
   forwards signing calls to it.  Asynchrony is modelled by passing the relevant
   environment (fetch responses, firmware outcomes) explicitly; promises are
   modelled by outcome values. -/

namespace BitBox02

/-! ### Device discovery: getDevicePath (bitbox02.js lines 15-44) -/

/-- One device entry of the JSON body returned by the bridge. -/
structure Device where
  path : String
  deriving DecidableEq, Repr

/-- Outcome of one fetch of http://localhost:8178/api/v1/devices:
either the fetch promise rejects, or a response arrives with a status code and
a parsed device list.  Per the fetch API, response.ok is derived from status. -/
inductive FetchOutcome
  | fail
  | resp (status : Nat) (devices : List Device)
  deriving DecidableEq, Repr

/-- response.ok of the fetch API: status in the range 200..299. -/
def respOk (status : Nat) : Bool := 200 ≤ status && status ≤ 299

/-- Record of one iteration of the discovery loop: the fetch outcome seen and
the milliseconds slept afterwards (none when no sleep was executed). -/
structure AttemptRecord where
  outcome : FetchOutcome
  sleptMs : Option Nat
  deriving DecidableEq, Repr

/-- The condition under which an attempt reaches the sleep(100) branch:
an ok response whose device list does not have exactly one entry. -/
def sleptCondition : FetchOutcome → Bool
  | .fail => false
  | .resp status devices => respOk status && devices.length != 1

/-- The for-loop of getDevicePath.  `i` is the loop counter, the second
argument is the number of remaining iterations (10 - i initially).  Returns the
list of attempt records and the result: the device path, or the thrown error
message. -/
def getDevicePathLoop (fetch : Nat → FetchOutcome) :
    Nat → Nat → List AttemptRecord × Except String String
  | _, 0 => ([], .error "Expected one BitBox02")
  | i, fuel + 1 =>
    match fetch i with
    | .fail => ([⟨.fail, none⟩], .error "BitBoxBridge not found")
    | .resp status devices =>
      if !respOk status && status == 403 then
        ([⟨.resp status devices, none⟩], .error "Origin not whitelisted")
      else if !respOk status then
        ([⟨.resp status devices, none⟩], .error "Unexpected")
      else if devices.length != 1 then
        let rest := getDevicePathLoop fetch (i + 1) fuel
        (⟨.resp status devices, some 100⟩ :: rest.1, rest.2)
      else
        ([⟨.resp status devices, none⟩], .ok ((devices.headD { path := "" }).path))

/-- getDevicePath: 10 attempts, starting at i = 0. -/
def getDevicePath (fetch : Nat → FetchOutcome) :
    List AttemptRecord × Except String String :=
  getDevicePathLoop fetch 0 10

/-! ### JS values, promisify (lines 46-58) -/

/-- Fragment of the JS value universe appearing at this interface. -/
inductive JsValue
  | null
  | undefined
  | num (n : Int)
  | str (s : String)
  | bytes (bs : List Nat)
  deriving DecidableEq, Repr

/-- Outcome of a promise: resolve was called with the given argument list, or
reject was called with the given value. -/
inductive PromiseOutcome
  | resolved (args : List JsValue)
  | rejected (err : JsValue)
  deriving DecidableEq, Repr

/-- The callback of promisify, applied to the results the wrapped function
passes to it: results.pop() takes the last element (undefined when empty); if
it is not null the promise is rejected with it, otherwise resolve is called
with the remaining results. -/
def callbackBody (results : List JsValue) : PromiseOutcome :=
  let err := results.getLastD JsValue.undefined
  let rest := results.dropLast
  if err ≠ JsValue.null then PromiseOutcome.rejected err else PromiseOutcome.resolved rest

/-- promisify f: the wrapped function calls f with the callback and the
arguments; f is represented by the results it hands to the callback. -/
def promisify (f : List JsValue → List JsValue) (args : List JsValue) : PromiseOutcome :=
  callbackBody (f args)

/-- A method of the firmware handle: original callback style, or the
promise-returning wrapper installed by connect. -/
inductive FwMethod
  | callbackStyle (f : List JsValue → List JsValue)
  | promiseStyle (f : List JsValue → PromiseOutcome)

/-- key.startsWith(p) of JS: the first p.length characters of key are p. -/
def jsStartsWith (s p : String) : Bool := s.toList.take p.length == p.toList

/-- The wrapping loop of connect (lines 104-109): every method of
firmware().js whose key starts with "Async" is replaced by its promisified
version; others are untouched. -/
def wrapAsyncMethods (js : List (String × (List JsValue → List JsValue))) :
    List (String × FwMethod) :=
  js.map fun kv =>
    if jsStartsWith kv.1 "Async" then (kv.1, FwMethod.promiseStyle (promisify kv.2))
    else (kv.1, FwMethod.callbackStyle kv.2)

/-! ### Output normalization (lines 60-70) and btcSign* (lines 208-226, 260-274) -/

/-- A transaction output object.  `none` models an absent field; `value` stands
for the fields not mentioned in the defaults object. -/
structure BTCOutput where
  type : Option Nat
  hash : Option (List Nat)
  keypath : Option (List Nat)
  value : Option Int
  deriving DecidableEq, Repr

/-- Object.assign of the defaults object with one output: each of type, hash,
keypath keeps its value when present and receives the default when absent;
every other field is copied unchanged. -/
def assignOutputDefaults (o : BTCOutput) : BTCOutput :=
  { type := some (o.type.getD 0)
    hash := some (o.hash.getD [])
    keypath := some (o.keypath.getD [])
    value := o.value }

/-- setOutputDefaults replaces each outputs[i] with the assigned object. -/
def setOutputDefaults (outputs : List BTCOutput) : List BTCOutput :=
  outputs.map assignOutputDefaults

/-- Arguments forwarded to firmware().js.AsyncBTCSignSimple. -/
structure BTCSignSimpleCall (α : Type) where
  coin : Nat
  simpleType : Nat
  keypathAccount : List Nat
  inputs : List α
  outputs : List BTCOutput
  version : Nat
  locktime : Nat

/-- btcSignSimple: applies setOutputDefaults and forwards everything. -/
def btcSignSimple {α : Type} (coin simpleType : Nat) (keypathAccount : List Nat)
    (inputs : List α) (outputs : List BTCOutput) (version locktime : Nat) :
    BTCSignSimpleCall α :=
  { coin := coin
    simpleType := simpleType
    keypathAccount := keypathAccount
    inputs := inputs
    outputs := setOutputDefaults outputs
    version := version
    locktime := locktime }

/-- Arguments forwarded to firmware().js.AsyncBTCSignMultisig. -/
structure BTCSignMultisigCall (α β : Type) where
  account : β
  inputs : List α
  outputs : List BTCOutput
  version : Nat
  locktime : Nat

/-- btcSignMultisig: applies setOutputDefaults and forwards everything. -/
def btcSignMultisig {α β : Type} (account : β) (inputs : List α)
    (outputs : List BTCOutput) (version locktime : Nat) : BTCSignMultisigCall α β :=
  { account := account
    inputs := inputs
    outputs := setOutputDefaults outputs
    version := version
    locktime := locktime }

/-! ### Device status, events and JS errors -/

/-- constants.Status of the external firmware library. -/
inductive Status
  | unpaired
  | pairingFailed
  | initialized
  | requireFirmwareUpgrade
  | requireAppUpgrade
  | uninitialized
  deriving DecidableEq, Repr

/-- constants.Event of the external firmware library. -/
inductive DeviceEvent
  | channelHashChanged
  | statusChanged
  | attestationCheckDone
  deriving DecidableEq, Repr

/-- JS error values crossing this interface: a plain `new Error(message)`, an
error object of the firmware library (whose Message field and abort code are
observable), a runtime TypeError, and the Error built by string concatenation
in the default branch of the status switch (its text depends on the string
values of the external constants). -/
inductive JsError
  | error (message : String)
  | fwError (message : String) (isAbort : Bool)
  | typeError (message : String)
  | unexpectedStatus (st : Status)
  deriving DecidableEq, Repr

/-- api.IsErrorAbort: recognises the firmware abort error; a plain Error is
never an abort. -/
def isErrorAbort : JsError → Bool
  | .fwError _ a => a
  | _ => false

/-- The .Message property: only firmware error objects carry a capital-M
Message field; on every other value the access yields undefined. -/
def messageField : JsError → Option String
  | .fwError m _ => some m
  | _ => none

/-- new Error(x) where x may be undefined: an undefined argument yields an
Error with empty message. -/
def jsNewError : Option String → JsError
  | some m => .error m
  | none => .error ""

/-- The catch block shared by ethSignTransaction and ethSignMessage
(lines 336-342 and 365-371): an abort becomes Error with message User abort,
anything else becomes new Error(err.Message). -/
def ethSignCatch (err : JsError) : JsError :=
  if isErrorAbort err then .error "User abort" else jsNewError (messageField err)

/-! ### Signature post-processing of ethSignTransaction / ethSignMessage -/

/-- Value of one hexadecimal digit character, if any. -/
def hexDigitVal (c : Char) : Option Nat :=
  if c.isDigit then some (c.toNat - 48)
  else if 97 ≤ c.toNat ∧ c.toNat ≤ 102 then some (c.toNat - 87)
  else if 65 ≤ c.toNat ∧ c.toNat ≤ 70 then some (c.toNat - 55)
  else none

/-- Parse the longest prefix of hexadecimal digits; the accumulator is none
while no digit has been consumed (NaN case of parseInt). -/
def parseHexAcc : List Char → Option Nat → Option Nat
  | [], acc => acc
  | c :: rest, acc =>
    match hexDigitVal c with
    | some d => parseHexAcc rest (some ((acc.getD 0) * 16 + d))
    | none => acc

/-- parseInt(s, 16) restricted to the inputs occurring here (no leading
whitespace, sign or 0x prefix, as the argument is a stringified byte array):
none models NaN. -/
def jsParseIntHex (s : String) : Option Nat := parseHexAcc s.toList none

/-- String conversion of a JS numeric array: decimal elements joined by
commas. -/
def jsArrayToString (bs : List Nat) : String :=
  String.intercalate "," (bs.map (fun b => Nat.repr b))

/-- The r, s, v object returned by ethSignTransaction / ethSignMessage.
v holds one entry; none models NaN. -/
structure EthSigResult where
  r : List Nat
  s : List Nat
  v : List (Option Nat)
  deriving DecidableEq, Repr

/-- Lines 329-334: r = sig.slice(0, 32), s = sig.slice(32, 64),
v = [parseInt(sig.slice(64), 16) + 27 + vOffset] with vOffset = chainId*2+8. -/
def ethSignTxResult (chainId : Nat) (sig : List Nat) : EthSigResult :=
  let vOffset := chainId * 2 + 8
  { r := sig.take 32
    s := (sig.drop 32).take 32
    v := [(jsParseIntHex (jsArrayToString (sig.drop 64))).map (fun n => n + 27 + vOffset)] }

/-- Lines 359-363: same slices, v = [parseInt(sig.slice(64), 16) + 27]. -/
def ethSignMsgResult (sig : List Nat) : EthSigResult :=
  { r := sig.take 32
    s := (sig.drop 32).take 32
    v := [(jsParseIntHex (jsArrayToString (sig.drop 64))).map (fun n => n + 27)] }

/-! ### Instance state, connectionValid, firmware, close (lines 72-76, 377-401) -/

/-- The bridge WebSocket as seen by this layer. -/
structure SocketModel where
  readyState : Nat
  closeCalled : Bool
  deriving DecidableEq, Repr

/-- WebSocket.OPEN. -/
def WebSocketOPEN : Nat := 1

/-- WebSocket.CLOSING, the readyState right after close() is called. -/
def WebSocketCLOSING : Nat := 2

/-- The firmware handle constructed by api.New; its js object holds the
methods. -/
structure FirmwareModel where
  js : List (String × FwMethod)

/-- Mutable fields of a BitBox02API instance.  socket and fw are none before
connect assigns them. -/
structure ApiState where
  devicePath : String
  opened : Bool
  socket : Option SocketModel
  fw : Option FirmwareModel

/-- connectionValid (lines 377-379): this.opened && this.socket.readyState ==
WebSocket.OPEN.  When opened is false the && short-circuits, so the socket is
not read; opened true with no socket cannot arise because connect assigns the
socket synchronously after setting opened. -/
def connectionValid (s : ApiState) : Bool :=
  s.opened && (match s.socket with
    | some sock => sock.readyState == WebSocketOPEN
    | none => false)

/-- firmware (lines 396-401): throws unless the connection is valid, else
returns this.fw (which is whatever the field holds). -/
def firmware (s : ApiState) : Except JsError (Option FirmwareModel) :=
  if connectionValid s then .ok s.fw
  else .error (.error "Device or websocket not connected")

/-- close (lines 384-390): false without touching anything when the connection
is invalid; otherwise socket.close() is called and true is returned. -/
def close (s : ApiState) : ApiState × Bool :=
  if connectionValid s then
    ({ s with socket :=
        s.socket.map fun sock =>
          { sock with readyState := WebSocketCLOSING, closeCalled := true } }, true)
  else (s, false)

/-- ethSignTransaction (lines 317-343): reads this.fw directly (no
connectionValid guard).  The firmware outcome is the settled result of
AsyncETHSign.  A missing handle raises a TypeError inside the try, which the
catch re-wraps like any other error. -/
def ethSignTransaction (s : ApiState) (chainId : Nat)
    (fwOutcome : Except JsError (List Nat)) : Except JsError EthSigResult :=
  match s.fw with
  | none => .error (ethSignCatch (.typeError "this.fw is undefined"))
  | some _ =>
    match fwOutcome with
    | .error e => .error (ethSignCatch e)
    | .ok sig => .ok (ethSignTxResult chainId sig)

/-- ethSignMessage (lines 350-372): goes through this.firmware(), inside the
try block, so the guard error is caught and re-wrapped by the same catch. -/
def ethSignMessage (s : ApiState)
    (fwOutcome : Except JsError (List Nat)) : Except JsError EthSigResult :=
  match firmware s with
  | .error e => .error (ethSignCatch e)
  | .ok none => .error (ethSignCatch (.typeError "this.fw is undefined"))
  | .ok (some _) =>
    match fwOutcome with
    | .error e => .error (ethSignCatch e)
    | .ok sig => .ok (ethSignMsgResult sig)

/-- How a forwarding method reaches the firmware handle. -/
inductive FwAccess
  | viaGuard
  | direct
  deriving DecidableEq, Repr

/-- Transcription of the handle expression used by each forwarding method body:
this.firmware() everywhere except ethSignTransaction, which uses this.fw. -/
def fwAccessTable : List (String × FwAccess) :=
  [("btcXPub", .viaGuard),
   ("btcDisplayAddressSimple", .viaGuard),
   ("btcSignSimple", .viaGuard),
   ("btcMaybeRegisterScriptConfig", .viaGuard),
   ("btcDisplayAddressMultisig", .viaGuard),
   ("btcSignMultisig", .viaGuard),
   ("ethGetRootPubKey", .viaGuard),
   ("ethDisplayAddress", .viaGuard),
   ("ethSignTransaction", .direct),
   ("ethSignMessage", .viaGuard)]

/-! ### connect (lines 86-167) -/

/-- Environment of one connect call: whether the socket errors instead of
opening, and the behaviour of the firmware and the user during the onopen
handler. -/
structure ConnectEnv where
  socketFails : Bool
  initError : Option JsError
  statusAfterInit : Status
  userVerifyError : Option JsError
  channelVerifyError : Option JsError

/-- Observable actions of connect, in order of occurrence. -/
inductive Action
  | newWebSocket (url : String)
  | socketOpen
  | socketError
  | apiNew
  | wrapAsync
  | fwCall (name : String)
  | userVerifyCall
  | closeSocket
  deriving DecidableEq, Repr

/-- Settlement of the promise returned by connect. -/
inductive ConnectOutcome
  | resolved
  | rejectedStr (s : String)
  | rejectedErr (e : JsError)
  deriving DecidableEq, Repr

/-- connect: opens the socket; on error the promise rejects with the busy
message; on open the handler constructs the handle (api.New), wraps the Async
methods, registers SetOnEvent, awaits AsyncInit and switches on the status;
thrown errors are caught and reject the promise. -/
def connectRun (devicePath : String) (env : ConnectEnv) : List Action × ConnectOutcome :=
  let pre : List Action := [.newWebSocket ("ws://127.0.0.1:8178/api/v1/socket/" ++ devicePath)]
  if env.socketFails then
    (pre ++ [.socketError], .rejectedStr "Your BitBox02 is busy")
  else
    let t0 := pre ++ [.socketOpen, .apiNew, .wrapAsync, .fwCall "SetOnEvent", .fwCall "AsyncInit"]
    match env.initError with
    | some e => (t0, .rejectedErr e)
    | none =>
      match env.statusAfterInit with
      | .pairingFailed => (t0 ++ [.closeSocket], .rejectedErr (.error "Pairing rejected"))
      | .unpaired =>
        let t1 := t0 ++ [.userVerifyCall]
        match env.userVerifyError with
        | some e => (t1, .rejectedErr e)
        | none =>
          let t2 := t1 ++ [.fwCall "AsyncChannelHashVerify"]
          match env.channelVerifyError with
          | some e => (t2, .rejectedErr e)
          | none => (t2, .resolved)
      | .initialized => (t0, .resolved)
      | st => (t0, .rejectedErr (.unexpectedStatus st))

/-- Effects of one run of the SetOnEvent handler (lines 111-134). -/
structure EventEffects where
  statusCbCalls : List Status
  pairingCbCalls : List String
  attestationCbCalls : List Bool
  socketClosed : Bool
  rejections : List String
  deriving DecidableEq, Repr

/-- The SetOnEvent handler, run with the current firmware status, channel hash
and attestation result (the handler reads them from the handle). -/
def setOnEventHandler (ev : DeviceEvent) (st : Status) (channelHash : String)
    (attestation : Bool) : EventEffects :=
  let e0 : EventEffects := ⟨[], [], [], false, []⟩
  let e1 := if ev == .statusChanged then
      { e0 with statusCbCalls := e0.statusCbCalls ++ [st] } else e0
  let e2 := if ev == .statusChanged && st == .unpaired then
      { e1 with pairingCbCalls := e1.pairingCbCalls ++ [channelHash] } else e1
  let e3 := if ev == .attestationCheckDone then
      { e2 with attestationCbCalls := e2.attestationCbCalls ++ [attestation] } else e2
  let e4 := if ev == .statusChanged && st == .requireFirmwareUpgrade then
      { e3 with socketClosed := true, rejections := e3.rejections ++ ["Firmware upgrade required"] } else e3
  let e5 := if ev == .statusChanged && st == .requireAppUpgrade then
      { e4 with socketClosed := true, rejections := e4.rejections ++ ["Unsupported firmware"] } else e4
  let e6 := if ev == .statusChanged && st == .uninitialized then
      { e5 with socketClosed := true, rejections := e5.rejections ++ ["Uninitialized"] } else e5
  e6

/-- An action that calls into the firmware handle. -/
def isFwCall : Action → Bool
  | .fwCall _ => true
  | _ => false

/-- noneBefore p q l: no p-action occurs before the first q-action of l. -/
def noneBefore (p q : Action → Bool) : List Action → Bool
  | [] => true
  | a :: rest => if q a then true else if p a then false else noneBefore p q rest

/-! ### Theorems -/

/-- Helper: the discovery loop performs at most `fuel` attempts, and an
attempt sleeps 100 ms exactly when it saw an ok response whose device list
does not have exactly one entry. -/
theorem getDevicePathLoop_length_all (fetch : Nat → FetchOutcome) (fuel i : Nat) :
    (getDevicePathLoop fetch i fuel).1.length ≤ fuel ∧
    ((getDevicePathLoop fetch i fuel).1.all fun r =>
      r.sleptMs == if sleptCondition r.outcome then some 100 else none) = true := by
  induction fuel generalizing i with
  | zero => simp [getDevicePathLoop]
  | succ n ih =>
    rcases hf : fetch i with _ | ⟨status, devices⟩
    · simp [getDevicePathLoop, hf, sleptCondition]
    · simp only [getDevicePathLoop, hf]
      split
      · next h =>
        have h' := h
        simp only [Bool.and_eq_true, Bool.not_eq_true'] at h'
        simp [sleptCondition, h'.1]
      · split
        · next h1 h2 =>
          have hok : respOk status = false := by simpa using h2
          simp [sleptCondition, hok]
        · split
          · next h1 h2 h3 =>
            have hok : respOk status = true := by
              revert h2; cases respOk status <;> simp
            refine ⟨by simpa using Nat.succ_le_succ (ih (i + 1)).1, ?_⟩
            simp only [List.all_cons, Bool.and_eq_true]
            exact ⟨by simp [sleptCondition, hok, h3], (ih (i + 1)).2⟩
          · next h1 h2 h3 =>
            have hok : respOk status = true := by
              revert h2; cases respOk status <;> simp
            have hlen : devices.length = 1 := by simpa using h3
            simp [sleptCondition, hok, hlen]

/-- Claim C1: getDevicePath makes at most 10 HTTP GET attempts, sleeps 100 ms
after exactly those attempts whose device list does not have exactly one entry
(among ok responses), and always terminates with either a device path or an
error. -/
theorem getDevicePath_fixed_attempts (fetch : Nat → FetchOutcome) :
    (getDevicePath fetch).1.length ≤ 10 ∧
    ((getDevicePath fetch).1.all fun r =>
      r.sleptMs == if sleptCondition r.outcome then some 100 else none) = true ∧
    ((∃ p, (getDevicePath fetch).2 = Except.ok p) ∨
      ∃ e, (getDevicePath fetch).2 = Except.error e) := by
  refine ⟨(getDevicePathLoop_length_all fetch 10 0).1,
    (getDevicePathLoop_length_all fetch 10 0).2, ?_⟩
  rcases h : (getDevicePath fetch).2 with e | p
  · exact Or.inr ⟨e, rfl⟩
  · exact Or.inl ⟨p, rfl⟩

/-- Helper: attempts whose response is ok with a non-singleton device list are
skipped over by the loop (after a sleep), leaving the result unchanged. -/
theorem getDevicePathLoop_skip (fetch : Nat → FetchOutcome) (k : Nat) :
    ∀ i fuel, (∀ j, j < k → sleptCondition (fetch (i + j)) = true) →
      (getDevicePathLoop fetch i (k + fuel)).2 = (getDevicePathLoop fetch (i + k) fuel).2 := by
  induction k with
  | zero => intro i fuel _; rw [Nat.zero_add, Nat.add_zero]
  | succ m ih =>
    intro i fuel h
    have h0 : sleptCondition (fetch i) = true := by simpa using h 0 (Nat.succ_pos m)
    rcases hf : fetch i with _ | ⟨status, devices⟩
    · rw [hf] at h0; simp [sleptCondition] at h0
    · rw [hf] at h0
      simp only [sleptCondition, Bool.and_eq_true] at h0
      have harith : m + 1 + fuel = (m + fuel) + 1 := by omega
      rw [harith]
      simp only [getDevicePathLoop, hf, h0.1, h0.2, Bool.not_true, Bool.false_and,
        Bool.and_eq_true, if_neg, reduceIte]
      have hrec := ih (i + 1) fuel (fun j hj => by
        have := h (j + 1) (by omega)
        simpa [Nat.add_assoc, Nat.add_comm 1 j] using this)
      have harith2 : i + (m + 1) = i + 1 + m := by omega
      rw [harith2]
      exact hrec

/-- Claim C2: error and result semantics of getDevicePath.  If every attempt
before attempt k saw an ok response with a non-singleton device list, then:
a failing fetch at attempt k throws BitBoxBridge not found; a 403 response
throws Origin not whitelisted; any other non-ok response throws Unexpected; an
ok response with exactly one device returns its path; and if all 10 attempts
see ok non-singleton lists, Expected one BitBox02 is thrown. -/
theorem getDevicePath_error_semantics (fetch : Nat → FetchOutcome) (k : Nat)
    (hk : k < 10) (hprev : ∀ j, j < k → sleptCondition (fetch j) = true) :
    (fetch k = .fail → (getDevicePath fetch).2 = .error "BitBoxBridge not found") ∧
    (∀ status devices, fetch k = .resp status devices → respOk status = false →
      status = 403 → (getDevicePath fetch).2 = .error "Origin not whitelisted") ∧
    (∀ status devices, fetch k = .resp status devices → respOk status = false →
      status ≠ 403 → (getDevicePath fetch).2 = .error "Unexpected") ∧
    (∀ status devices, fetch k = .resp status devices → respOk status = true →
      devices.length = 1 →
      (getDevicePath fetch).2 = .ok ((devices.headD { path := "" }).path)) ∧
    ((∀ j, j < 10 → sleptCondition (fetch j) = true) →
      (getDevicePath fetch).2 = .error "Expected one BitBox02") := by
  have hsplit : (getDevicePath fetch).2 = (getDevicePathLoop fetch k (10 - k)).2 := by
    have h10 : 10 = k + (10 - k) := by omega
    calc (getDevicePath fetch).2 = (getDevicePathLoop fetch 0 (k + (10 - k))).2 := by
          rw [getDevicePath, ← h10]
      _ = (getDevicePathLoop fetch (0 + k) (10 - k)).2 :=
          getDevicePathLoop_skip fetch k 0 (10 - k) (fun j hj => by simpa using hprev j hj)
      _ = (getDevicePathLoop fetch k (10 - k)).2 := by rw [Nat.zero_add]
  have hfuel : 10 - k = (10 - k - 1) + 1 := by omega
  refine ⟨?_, ?_, ?_, ?_, ?_⟩
  · intro hf
    rw [hsplit, hfuel]
    simp [getDevicePathLoop, hf]
  · intro status devices hf hok h403
    subst h403
    rw [hsplit, hfuel]
    simp [getDevicePathLoop, hf, hok]
  · intro status devices hf hok h403
    rw [hsplit, hfuel]
    simp [getDevicePathLoop, hf, hok, h403]
  · intro status devices hf hok hlen
    rw [hsplit, hfuel]
    simp [getDevicePathLoop, hf, hok, hlen]
  · intro hall
    have hskip := getDevicePathLoop_skip fetch 10 0 0 (fun j hj => by simpa using hall j hj)
    have hres : (getDevicePath fetch).2 = (getDevicePathLoop fetch (0 + 10) 0).2 := hskip
    rw [hres]
    rfl

/-- Witness for claim C2: a bridge that is never reachable yields the
not-found error, and a bridge reporting exactly one device on the first
attempt yields its path. -/
theorem getDevicePath_error_semantics_witness :
    (getDevicePath fun _ => FetchOutcome.fail).2 = .error "BitBoxBridge not found" ∧
    (getDevicePath fun _ => FetchOutcome.resp 200 [{ path := "abc" }]).2 = .ok "abc" := by
  constructor
  · exact (getDevicePath_error_semantics (fun _ => FetchOutcome.fail) 0 (by omega)
      (fun j hj => absurd hj (by omega))).1 rfl
  · exact (getDevicePath_error_semantics (fun _ => FetchOutcome.resp 200 [{ path := "abc" }]) 0
      (by omega) (fun j hj => absurd hj (by omega))).2.2.2.1 200 [{ path := "abc" }] rfl
      (by decide) rfl

/-- Claim C3: connect rejection behaviour.  A socket error rejects the promise
with the busy message; a PairingFailed status after initialization closes the
socket and rejects with Error Pairing rejected; a status change to
RequireFirmwareUpgrade makes the event handler close the socket and reject
with Firmware upgrade required. -/
theorem connect_error_rejections (dp : String) (env : ConnectEnv) (ch : String) (att : Bool) :
    (env.socketFails = true → (connectRun dp env).2 = .rejectedStr "Your BitBox02 is busy") ∧
    (env.socketFails = false → env.initError = none → env.statusAfterInit = .pairingFailed →
      (connectRun dp env).2 = .rejectedErr (.error "Pairing rejected") ∧
      Action.closeSocket ∈ (connectRun dp env).1) ∧
    ((setOnEventHandler .statusChanged .requireFirmwareUpgrade ch att).socketClosed = true ∧
      (setOnEventHandler .statusChanged .requireFirmwareUpgrade ch att).rejections =
        ["Firmware upgrade required"]) := by
  refine ⟨?_, ?_, ?_, ?_⟩
  · intro h
    simp [connectRun, h]
  · intro h1 h2 h3
    simp [connectRun, h1, h2, h3]
  · rfl
  · rfl

/-- Witness for claim C3: concrete environments exercising the busy rejection
and the pairing rejection. -/
theorem connect_error_rejections_witness :
    (connectRun "p" ⟨true, none, Status.initialized, none, none⟩).2 =
      .rejectedStr "Your BitBox02 is busy" ∧
    (connectRun "p" ⟨false, none, Status.pairingFailed, none, none⟩).2 =
      .rejectedErr (.error "Pairing rejected") :=
  ⟨(connect_error_rejections "p" ⟨true, none, Status.initialized, none, none⟩ "c" false).1 rfl,
   ((connect_error_rejections "p" ⟨false, none, Status.pairingFailed, none, none⟩ "c"
      false).2.1 rfl rfl rfl).1⟩

/-- Claim C6: after connect, every firmware method whose key starts with Async
is replaced by its promisified wrapper, and the wrapper rejects with the final
callback result when it is non-null and resolves with the preceding results
when it is null. -/
theorem async_methods_promisified (js : List (String × (List JsValue → List JsValue)))
    (k : String) (f : List JsValue → List JsValue)
    (hmem : (k, f) ∈ js) (hk : jsStartsWith k "Async" = true) :
    ((k, FwMethod.promiseStyle (promisify f)) ∈ wrapAsyncMethods js) ∧
    ∀ args rest err, f args = rest ++ [err] →
      (err ≠ JsValue.null → promisify f args = .rejected err) ∧
      (err = JsValue.null → promisify f args = .resolved rest) := by
  constructor
  · have hmem2 := List.mem_map_of_mem (fun kv =>
      if jsStartsWith kv.1 "Async" then (kv.1, FwMethod.promiseStyle (promisify kv.2))
      else (kv.1, FwMethod.callbackStyle kv.2)) hmem
    simpa [wrapAsyncMethods, hk] using hmem2
  · intro args rest err heq
    constructor
    · intro hne
      simp [promisify, callbackBody, heq, hne]
    · intro he
      simp [promisify, callbackBody, heq, he]

/-- Example callback-style firmware method used by the witness: it passes its
arguments followed by a null error to the callback. -/
def demoAsyncBehavior : List JsValue → List JsValue :=
  fun args => args ++ [JsValue.null]

/-- Witness for claim C6: a one-method firmware object whose Async method is
promisified, resolving on null errors. -/
theorem async_methods_promisified_witness :
    (("AsyncDemo", FwMethod.promiseStyle (promisify demoAsyncBehavior)) ∈
      wrapAsyncMethods [("AsyncDemo", demoAsyncBehavior)]) ∧
    promisify demoAsyncBehavior [JsValue.num 7] = .resolved [JsValue.num 7] :=
  ⟨(async_methods_promisified [("AsyncDemo", demoAsyncBehavior)] "AsyncDemo" demoAsyncBehavior
      (List.mem_singleton.mpr rfl) (by decide)).1,
   ((async_methods_promisified [("AsyncDemo", demoAsyncBehavior)] "AsyncDemo" demoAsyncBehavior
      (List.mem_singleton.mpr rfl) (by decide)).2 [JsValue.num 7] [JsValue.num 7] JsValue.null
      rfl).2 rfl⟩

/-- Claim C7: composition order of connect.  In every execution trace, no
firmware call precedes the construction of the handle (api.New), the handle is
constructed only after the socket open event, and hence no firmware call
precedes the socket being open. -/
theorem connect_composition_order (dp : String) (env : ConnectEnv) :
    noneBefore isFwCall (fun a => a == Action.apiNew) (connectRun dp env).1 = true ∧
    noneBefore (fun a => a == Action.apiNew) (fun a => a == Action.socketOpen)
      (connectRun dp env).1 = true ∧
    noneBefore isFwCall (fun a => a == Action.socketOpen) (connectRun dp env).1 = true := by
  obtain ⟨sf, ie, st, uv, cv⟩ := env
  cases sf <;> cases ie <;> cases st <;> cases uv <;> cases cv <;>
    simp [connectRun, noneBefore, isFwCall]

/-- Counterexample for claim C4: a non-abort firmware error is not reported to
the caller unchanged; the catch block re-wraps it into a plain new Error
carrying only its Message. -/
theorem eth_sign_error_rewrapped :
    ethSignCatch (JsError.fwError "unknown keypath" false) ≠
      JsError.fwError "unknown keypath" false := by decide

/-- Claim C4 (amended): for every failing call of ethSignTransaction or
ethSignMessage, a user abort is reported as Error with message User abort, and
every other firmware error is reported as a new Error whose message is the
firmware error's Message field. -/
theorem eth_sign_error_forwarding (s : ApiState) (fwm : FirmwareModel) (chainId : Nat)
    (m : String) (a : Bool) (hfw : s.fw = some fwm) (hvalid : connectionValid s = true) :
    ethSignTransaction s chainId (.error (.fwError m a)) =
      .error (if a then .error "User abort" else .error m) ∧
    ethSignMessage s (.error (.fwError m a)) =
      .error (if a then .error "User abort" else .error m) := by
  cases a <;>
    simp [ethSignTransaction, ethSignMessage, firmware, hvalid, hfw, ethSignCatch,
      isErrorAbort, messageField, jsNewError]

/-- A concrete firmware handle for witnesses. -/
def demoFirmware : FirmwareModel := ⟨[]⟩

/-- A connected instance: opened, socket OPEN, handle assigned. -/
def demoState : ApiState :=
  ⟨"devpath", true, some ⟨WebSocketOPEN, false⟩, some demoFirmware⟩

/-- An instance whose socket is CLOSED (readyState 3) but whose handle is
still assigned. -/
def demoStateClosed : ApiState :=
  ⟨"devpath", true, some ⟨3, false⟩, some demoFirmware⟩

/-- Witness for claim C4: an abort error and a plain firmware error at a
connected instance. -/
theorem eth_sign_error_forwarding_witness :
    ethSignTransaction demoState 1 (.error (.fwError "x" true)) =
      .error (if true then JsError.error "User abort" else JsError.error "x") ∧
    ethSignMessage demoState (.error (.fwError "x" true)) =
      .error (if true then JsError.error "User abort" else JsError.error "x") :=
  eth_sign_error_forwarding demoState demoFirmware 1 "x" true rfl rfl

/-- Claim C5: btcSignSimple and btcSignMultisig forward every argument
unchanged apart from the light normalization of each output object: each of
type, hash, keypath receives its default when absent and keeps its original
value when present, and the remaining fields are untouched. -/
theorem btc_sign_light_normalization {α β : Type} (coin simpleType : Nat)
    (kp : List Nat) (inputs : List α) (outputs : List BTCOutput)
    (version locktime : Nat) (account : β) :
    btcSignSimple coin simpleType kp inputs outputs version locktime =
      ⟨coin, simpleType, kp, inputs, outputs.map assignOutputDefaults, version, locktime⟩ ∧
    btcSignMultisig account inputs outputs version locktime =
      ⟨account, inputs, outputs.map assignOutputDefaults, version, locktime⟩ ∧
    ∀ o : BTCOutput,
      (o.type = none → (assignOutputDefaults o).type = some 0) ∧
      (∀ v, o.type = some v → (assignOutputDefaults o).type = some v) ∧
      (o.hash = none → (assignOutputDefaults o).hash = some []) ∧
      (∀ v, o.hash = some v → (assignOutputDefaults o).hash = some v) ∧
      (o.keypath = none → (assignOutputDefaults o).keypath = some []) ∧
      (∀ v, o.keypath = some v → (assignOutputDefaults o).keypath = some v) ∧
      (assignOutputDefaults o).value = o.value := by
  refine ⟨rfl, rfl, ?_⟩
  intro o
  refine ⟨?_, ?_, ?_, ?_, ?_, ?_, rfl⟩ <;>
    · intros
      simp [assignOutputDefaults, *]

/-- Witness for claim C5: one output with absent type and keypath and a
present hash keeps the hash and receives the defaults. -/
theorem btc_sign_light_normalization_witness :
    (assignOutputDefaults ⟨none, some [7], none, some 5⟩).type = some 0 ∧
    (assignOutputDefaults ⟨some 9, none, some [8], none⟩).type = some 9 ∧
    (assignOutputDefaults ⟨none, some [7], none, some 5⟩).hash = some [7] ∧
    (btcSignSimple 1 2 [3] ([4] : List Nat) [⟨none, some [7], none, some 5⟩] 2 0).outputs =
      [⟨some 0, some [7], some [], some 5⟩] := by
  have h := btc_sign_light_normalization 1 2 [3] ([4] : List Nat)
    [(⟨none, some [7], none, some 5⟩ : BTCOutput)] 2 0 (0 : Nat)
  exact ⟨(h.2.2 ⟨none, some [7], none, some 5⟩).1 rfl,
    (h.2.2 ⟨some 9, none, some [8], none⟩).2.1 9 rfl,
    (h.2.2 ⟨none, some [7], none, some 5⟩).2.2.2.1 [7] rfl,
    rfl⟩

/-- Claim C8: firmware() throws the guard error exactly when the connection is
invalid (never opened, or socket readyState not OPEN) and otherwise returns
this.fw; ethSignTransaction reads this.fw directly, so its behaviour does not
depend on the guard fields, unlike ethSignMessage; the access table confirms
it is the only forwarding method using this.fw. -/
theorem firmware_guard (s : ApiState) (hinv : s.opened = true → s.socket.isSome = true) :
    (firmware s = .error (.error "Device or websocket not connected") ↔
      (s.opened = false ∨ s.socket.map SocketModel.readyState ≠ some WebSocketOPEN)) ∧
    (connectionValid s = true → firmware s = .ok s.fw) ∧
    (∀ chainId fwOut, ethSignTransaction { s with opened := false } chainId fwOut =
      ethSignTransaction s chainId fwOut) ∧
    (connectionValid s = false → ∀ fwOut, ethSignMessage s fwOut =
      .error (ethSignCatch (.error "Device or websocket not connected"))) ∧
    (fwAccessTable.all fun p =>
      (p.2 == FwAccess.direct) == (p.1 == "ethSignTransaction")) = true := by
  obtain ⟨dp, op, sock, fw⟩ := s
  refine ⟨?_, ?_, ?_, ?_, by decide⟩
  · cases op with
    | false => simp [firmware, connectionValid]
    | true =>
      have hs := hinv rfl
      cases sock with
      | none => simp at hs
      | some k =>
        by_cases hr : k.readyState = WebSocketOPEN
        · simp [firmware, connectionValid, hr]
        · simp [firmware, connectionValid, hr]
  · intro h
    simp [firmware, h]
  · intro chainId fwOut
    rfl
  · intro hv fwOut
    simp [ethSignMessage, firmware, hv]

/-- Witness for claim C8: on a connected instance firmware() returns the
handle; on a closed socket ethSignMessage runs into the guard (its error is
then re-wrapped by its catch block). -/
theorem firmware_guard_witness :
    firmware demoState = .ok (some demoFirmware) ∧
    ethSignMessage demoStateClosed (.ok []) =
      .error (ethSignCatch (.error "Device or websocket not connected")) :=
  ⟨(firmware_guard demoState (fun _ => rfl)).2.1 rfl,
   (firmware_guard demoStateClosed (fun _ => rfl)).2.2.2.1 rfl (.ok [])⟩

/-- Claim C9: close() calls socket.close() and returns true exactly when the
connection is valid; when it is invalid it returns false and leaves
devicePath, opened, socket and fw unchanged. -/
theorem close_spec (s : ApiState) :
    (connectionValid s = true → (close s).2 = true ∧
      ∀ sock, s.socket = some sock →
        (close s).1.socket =
          some { sock with readyState := WebSocketCLOSING, closeCalled := true } ∧
        (close s).1.devicePath = s.devicePath ∧ (close s).1.opened = s.opened ∧
        (close s).1.fw = s.fw) ∧
    (connectionValid s = false → close s = (s, false)) := by
  constructor
  · intro hv
    refine ⟨by simp [close, hv], ?_⟩
    intro sock hs
    simp [close, hv, hs]
  · intro hv
    simp [close, hv]

/-- Witness for claim C9: a connected instance is closed with result true; an
instance with a closed socket is left unchanged with result false. -/
theorem close_spec_witness :
    (close demoState).2 = true ∧ close demoStateClosed = (demoStateClosed, false) :=
  ⟨((close_spec demoState).1 rfl).1, (close_spec demoStateClosed).2 rfl⟩

/-- Claim C10: for a 65-byte signature whose final byte is the EIP-155
recovery value recByte (0 or 1), ethSignTransaction returns r = bytes 0..31,
s = bytes 32..63 and v = recByte + 27 + (2*chainId + 8), while ethSignMessage
returns the same r and s with v = recByte + 27. -/
theorem eth_sig_rsv (chainId : Nat) (sig : List Nat) (recByte : Nat)
    (hlen : sig.length = 65) (hdrop : sig.drop 64 = [recByte]) (hrec : recByte ≤ 1) :
    ethSignTxResult chainId sig =
      { r := sig.take 32, s := (sig.drop 32).take 32,
        v := [some (recByte + 27 + (2 * chainId + 8))] } ∧
    ethSignMsgResult sig =
      { r := sig.take 32, s := (sig.drop 32).take 32, v := [some (recByte + 27)] } := by
  interval_cases recByte <;>
    constructor <;>
      simp [ethSignTxResult, ethSignMsgResult, hdrop, jsArrayToString, jsParseIntHex,
        parseHexAcc, hexDigitVal, Nat.mul_comm] <;> decide

/-- Witness for claim C10: an all-zero signature ending in recovery byte 1,
with chainId 1, yields v = 38 for the transaction path and v = 28 for the
message path. -/
theorem eth_sig_rsv_witness :
    ethSignTxResult 1 (List.replicate 64 0 ++ [1]) =
      { r := List.replicate 32 0, s := List.replicate 32 0, v := [some 38] } ∧
    ethSignMsgResult (List.replicate 64 0 ++ [1]) =
      { r := List.replicate 32 0, s := List.replicate 32 0, v := [some 28] } := by
  have h := eth_sig_rsv 1 (List.replicate 64 0 ++ [1]) 1 (by decide) (by decide) (by decide)
  constructor
  · rw [h.1]; decide
  · rw [h.2]; decide

end BitBox02
